import Mathlib

/-!
Shallow embedding of `crates/wdk/src/wdf/spinlock.rs`: the raw `SpinLock`
wrapper over the native WDF spin-lock calls, and the typestate wrapper
`SafeSpinLock` with its error taxonomy `SpinLockError`.

The native layer (WdfSpinLockCreate / WdfSpinLockAcquire / WdfSpinLockRelease)
is external to the crate; it is modelled as an environment `WdfEnv` that
decides, per attributes value, the NTSTATUS returned by the construct call and
the handle it writes.  Every operation additionally returns the list of native
calls it performed, so that "calls the raw acquire", "no native construct
call" and call-count properties are statable.
-/

/-- Model of `WDF_OBJECT_ATTRIBUTES`: the code never inspects its fields, only
forwards the pointer to the native construct call, so one abstract field
suffices. -/
structure WDF_OBJECT_ATTRIBUTES where
  raw : Nat
deriving DecidableEq

/-- `NTSTATUS` is a 32-bit signed status code; modelled as `Int`. -/
abbrev NTSTATUS := Int

/-- `nt_success` from the `wdk` crate root (not under this module): the
standard `NT_SUCCESS` predicate, true exactly on non-negative status codes. -/
def nt_success (s : NTSTATUS) : Bool := 0 ≤ s

/-- A native call made through `call_unsafe_wdf_function_binding!`. -/
inductive NativeCall where
  /-- `WdfSpinLockCreate(attributes, &mut handle)` -/
  | construct (attributes : WDF_OBJECT_ATTRIBUTES)
  /-- `WdfSpinLockAcquire(handle)` -/
  | acquireCall (handle : Nat)
  /-- `WdfSpinLockRelease(handle)` -/
  | releaseCall (handle : Nat)
deriving DecidableEq

/-- The native WDF environment: for each attributes argument,
the NTSTATUS `WdfSpinLockCreate` returns and the `WDFSPINLOCK` handle value it
writes through the out-pointer. -/
structure WdfEnv where
  constructStatus : WDF_OBJECT_ATTRIBUTES → NTSTATUS
  constructHandle : WDF_OBJECT_ATTRIBUTES → Nat

/-- `struct SpinLock { wdf_spin_lock: WDFSPINLOCK }`: the raw wrapper owning
one native spin-lock handle (a pointer, modelled as `Nat`, `0` = null). -/
structure SpinLock where
  wdf_spin_lock : Nat
deriving DecidableEq

namespace SpinLock

/-- `SpinLock::try_new`: calls `WdfSpinLockCreate` with the given attributes;
`nt_success(nt_status).then_some(spin_lock).ok_or(nt_status)`.  Returns the
result together with the native calls performed. -/
def try_new (env : WdfEnv) (attributes : WDF_OBJECT_ATTRIBUTES) :
    Except NTSTATUS SpinLock × List NativeCall :=
  let nt_status := env.constructStatus attributes
  let spin_lock : SpinLock := { wdf_spin_lock := env.constructHandle attributes }
  (if nt_success nt_status then .ok spin_lock else .error nt_status,
   [.construct attributes])

/-- `SpinLock::create`: an alias for `SpinLock::try_new` (its body is
`Self::try_new(attributes)`). -/
def create (env : WdfEnv) (attributes : WDF_OBJECT_ATTRIBUTES) :
    Except NTSTATUS SpinLock × List NativeCall :=
  try_new env attributes

/-- `SpinLock::acquire(&self)`: calls `WdfSpinLockAcquire(self.wdf_spin_lock)`;
returns `()` in Rust, so only the native-call trace is of interest here. -/
def acquire (self : SpinLock) : List NativeCall :=
  [.acquireCall self.wdf_spin_lock]

/-- `SpinLock::release(&self)`: calls `WdfSpinLockRelease(self.wdf_spin_lock)`. -/
def release (self : SpinLock) : List NativeCall :=
  [.releaseCall self.wdf_spin_lock]

end SpinLock

/-- `enum SafeSpinLock`: the typestate wrapper over a raw `SpinLock`. -/
inductive SafeSpinLock where
  /-- The spinlock has not been initialized and cannot be used. -/
  | Uninitialized
  /-- The spinlock has been initialized but is not held. -/
  | Initialized (inner : SpinLock)
  /-- The spinlock is currently held and cannot be acquired again. -/
  | Held (inner : SpinLock)
deriving DecidableEq

/-- `enum SpinLockError`: errors relevant to working with spinlocks. -/
inductive SpinLockError where
  /-- Attempted to create a lock a second time. -/
  | AlreadyCreated (lock : SafeSpinLock)
  /-- Could not create the lock.  (No fields in the source.) -/
  | CreateFailed
  /-- The lock is already held. -/
  | AlreadyHeld (lock : SafeSpinLock)
  /-- The lock is not yet initialized. -/
  | Uninitialized (lock : SafeSpinLock)
  /-- The lock is initialized but not held. -/
  | NotHeld (lock : SafeSpinLock)
deriving DecidableEq

namespace SpinLockError

/-- The native status code a `SpinLockError` value carries, read off the
variants' fields: none of the five variants has an `NTSTATUS` field. -/
def nativeStatus : SpinLockError → Option NTSTATUS
  | .AlreadyCreated _ => none
  | .CreateFailed => none
  | .AlreadyHeld _ => none
  | .Uninitialized _ => none
  | .NotHeld _ => none

end SpinLockError

namespace SafeSpinLock

/-- `SafeSpinLock::create(self, attributes)`: on `Uninitialized`, calls
`SpinLock::create(attributes)` and wraps success as `Initialized { inner }`,
failure as `CreateFailed`; on `Held`/`Initialized`, fails with
`AlreadyCreated { lock: self }` without any native call. -/
def create (env : WdfEnv) (self : SafeSpinLock)
    (attributes : WDF_OBJECT_ATTRIBUTES) :
    Except SpinLockError SafeSpinLock × List NativeCall :=
  match self with
  | .Uninitialized =>
    match SpinLock.create env attributes with
    | (.ok spin, tr) => (.ok (.Initialized spin), tr)
    | (.error _, tr) => (.error .CreateFailed, tr)
  | .Initialized inner =>
    (.error (.AlreadyCreated (.Initialized inner)), [])
  | .Held inner =>
    (.error (.AlreadyCreated (.Held inner)), [])

/-- `SafeSpinLock::acquire(self)`: on `Initialized { inner: spin }`, calls
`spin.acquire()` and returns `Ok(SafeSpinLock::Initialized { inner: spin })`;
on `Held`, fails with `AlreadyHeld { lock: self }`; on `Uninitialized`, fails
with `Uninitialized { lock: self }`. -/
def acquire (self : SafeSpinLock) :
    Except SpinLockError SafeSpinLock × List NativeCall :=
  match self with
  | .Initialized spin =>
    (.ok (.Initialized spin), spin.acquire)
  | .Held inner =>
    (.error (.AlreadyHeld (.Held inner)), [])
  | .Uninitialized =>
    (.error (.Uninitialized .Uninitialized), [])

/-- `SafeSpinLock::release(self)`: on `Held { inner: spin }`, calls
`spin.release()` and returns `Ok(SafeSpinLock::Held { inner: spin })`;
on `Initialized`, fails with `NotHeld { lock: self }`; on `Uninitialized`,
fails with `Uninitialized { lock: self }`. -/
def release (self : SafeSpinLock) :
    Except SpinLockError SafeSpinLock × List NativeCall :=
  match self with
  | .Held spin =>
    (.ok (.Held spin), spin.release)
  | .Initialized inner =>
    (.error (.NotHeld (.Initialized inner)), [])
  | .Uninitialized =>
    (.error (.Uninitialized .Uninitialized), [])

/-- The raw handle values a `SafeSpinLock` value owns (zero or one). -/
def handles : SafeSpinLock → List Nat
  | .Uninitialized => []
  | .Initialized inner => [inner.wdf_spin_lock]
  | .Held inner => [inner.wdf_spin_lock]

end SafeSpinLock

/-- The raw handle values an operation result returns to the caller: those of
the success value, or of the lock embedded in the error (`CreateFailed`
embeds nothing). -/
def resultHandles : Except SpinLockError SafeSpinLock → List Nat
  | .ok l => l.handles
  | .error (.AlreadyCreated l) => l.handles
  | .error .CreateFailed => []
  | .error (.AlreadyHeld l) => l.handles
  | .error (.Uninitialized l) => l.handles
  | .error (.NotHeld l) => l.handles

/-- A concrete environment whose construct call succeeds (status `0`) and
writes handle `7`, for witnesses. -/
def envOk : WdfEnv := ⟨fun _ => 0, fun _ => 7⟩

/-- A concrete environment whose construct call fails with
`STATUS_INSUFFICIENT_RESOURCES` (`0xC000009A = -1073741670`), for witnesses. -/
def envFail : WdfEnv := ⟨fun _ => -1073741670, fun _ => 0⟩

/-! ## Claim theorems -/

/-- C1: the claim says a second `acquire` immediately after a successful
`acquire` fails with `AlreadyHeld`.  The code refutes this: `acquire` on an
`Initialized` lock returns the success value still tagged `Initialized`, so
the second `acquire`, applied to the first call's success value, succeeds
again instead of failing with `AlreadyHeld`.  Evaluated at the concrete
lock `Initialized ⟨7⟩`. -/
theorem c1_second_acquire_succeeds :
    (SafeSpinLock.acquire (.Initialized ⟨7⟩)).1 =
      .ok (.Initialized ⟨7⟩) ∧
    (SafeSpinLock.acquire
        (((SafeSpinLock.acquire (.Initialized ⟨7⟩)).1.toOption).getD
          .Uninitialized)).1 =
      .ok (.Initialized ⟨7⟩) :=
  ⟨rfl, rfl⟩

/-- C2: the claim says `create` → `acquire` → `release` → `acquire` succeeds
at every step when the native construct call succeeds.  The code refutes
this: with a succeeding environment, `create` and `acquire` succeed, but the
success value of `acquire` is still tagged `Initialized`, so the `release`
step fails with `NotHeld`.  Evaluated at `envOk` and attributes `⟨0⟩`. -/
theorem c2_roundtrip_release_fails :
    (SafeSpinLock.create envOk .Uninitialized ⟨0⟩).1 =
      .ok (.Initialized ⟨7⟩) ∧
    (SafeSpinLock.acquire (.Initialized ⟨7⟩)).1 =
      .ok (.Initialized ⟨7⟩) ∧
    (SafeSpinLock.release (.Initialized ⟨7⟩)).1 =
      .error (.NotHeld (.Initialized ⟨7⟩)) :=
  ⟨rfl, rfl, rfl⟩

/-- C3: on every `Initialized` lock, `acquire` performs exactly the raw inner
acquire call and returns success tagged `Initialized` (not `Held`) wrapping
the same inner raw lock handle. -/
theorem c3_acquire_on_initialized (inner : SpinLock) :
    SafeSpinLock.acquire (.Initialized inner) =
      (.ok (.Initialized inner), SpinLock.acquire inner) ∧
    SpinLock.acquire inner = [.acquireCall inner.wdf_spin_lock] :=
  ⟨rfl, rfl⟩

/-- C4: on every `Held` lock, `release` performs exactly the raw inner release
call and returns success tagged `Held` (not `Initialized`) wrapping the same
inner raw lock handle. -/
theorem c4_release_on_held (inner : SpinLock) :
    SafeSpinLock.release (.Held inner) =
      (.ok (.Held inner), SpinLock.release inner) ∧
    SpinLock.release inner = [.releaseCall inner.wdf_spin_lock] :=
  ⟨rfl, rfl⟩

/-- C5: on an `Uninitialized` lock, `acquire` and `release` both fail with the
`Uninitialized` error embedding the unchanged `Uninitialized` value (and make
no native call), while `create` succeeds whenever the native construct call
succeeds — so `create` is the only operation that can succeed on it. -/
theorem c5_uninitialized_ops (env : WdfEnv) (attrs : WDF_OBJECT_ATTRIBUTES)
    (h : nt_success (env.constructStatus attrs) = true) :
    SafeSpinLock.acquire .Uninitialized =
      (.error (.Uninitialized .Uninitialized), []) ∧
    SafeSpinLock.release .Uninitialized =
      (.error (.Uninitialized .Uninitialized), []) ∧
    (SafeSpinLock.create env .Uninitialized attrs).1 =
      .ok (.Initialized ⟨env.constructHandle attrs⟩) := by
  refine ⟨rfl, rfl, ?_⟩
  simp [SafeSpinLock.create, SpinLock.create, SpinLock.try_new, h]

/-- Witness for C5 at the concrete environment `envOk` and attributes `⟨0⟩`. -/
theorem c5_uninitialized_ops_witness :
    nt_success (envOk.constructStatus ⟨0⟩) = true ∧
    (SafeSpinLock.acquire .Uninitialized =
        (.error (.Uninitialized .Uninitialized), []) ∧
      SafeSpinLock.release .Uninitialized =
        (.error (.Uninitialized .Uninitialized), []) ∧
      (SafeSpinLock.create envOk .Uninitialized ⟨0⟩).1 =
        .ok (.Initialized ⟨envOk.constructHandle ⟨0⟩⟩)) :=
  ⟨by decide, c5_uninitialized_ops envOk ⟨0⟩ (by decide)⟩

/-- C6: `create` on an `Initialized` or `Held` lock fails with
`AlreadyCreated` embedding the exact prior value in its exact prior state,
and performs no native call (empty trace). -/
theorem c6_create_on_created (env : WdfEnv) (attrs : WDF_OBJECT_ATTRIBUTES)
    (inner : SpinLock) :
    SafeSpinLock.create env (.Initialized inner) attrs =
      (.error (.AlreadyCreated (.Initialized inner)), []) ∧
    SafeSpinLock.create env (.Held inner) attrs =
      (.error (.AlreadyCreated (.Held inner)), []) :=
  ⟨rfl, rfl⟩

/-- C7: `release` on an `Initialized` (never-acquired) lock fails with
`NotHeld` carrying back the `Initialized` value, and performs no native call
(empty trace, so the raw release is not called). -/
theorem c7_release_on_initialized (inner : SpinLock) :
    SafeSpinLock.release (.Initialized inner) =
      (.error (.NotHeld (.Initialized inner)), []) :=
  rfl

/-- C8 counterexample: the claim says the error returned when the native
construct call fails carries the native status code.  With `envFail`, whose
construct call fails with status `-1073741670`, `create` on `Uninitialized`
returns the fieldless `CreateFailed` variant, which carries no status code at
all (`nativeStatus` is `none`, not `some (-1073741670)`). -/
theorem c8_status_not_carried :
    (SafeSpinLock.create envFail .Uninitialized ⟨0⟩).1 =
      .error .CreateFailed ∧
    envFail.constructStatus ⟨0⟩ = -1073741670 ∧
    SpinLockError.nativeStatus .CreateFailed ≠ some (-1073741670) :=
  ⟨rfl, rfl, by decide⟩

/-- C8 amended: whenever `create` is applied to an `Uninitialized` lock and
the native construct call fails, the operation fails with the `CreateFailed`
error variant, which carries no payload — the native status code (which the
raw layer's `try_new` does return) is discarded and not surfaced to the
caller of the safe layer. -/
theorem c8_create_failed_discards_status (env : WdfEnv)
    (attrs : WDF_OBJECT_ATTRIBUTES)
    (h : nt_success (env.constructStatus attrs) = false) :
    (SafeSpinLock.create env .Uninitialized attrs).1 =
      .error .CreateFailed ∧
    (SpinLock.try_new env attrs).1 =
      .error (env.constructStatus attrs) ∧
    SpinLockError.nativeStatus .CreateFailed = none := by
  refine ⟨?_, ?_, rfl⟩ <;>
    simp [SafeSpinLock.create, SpinLock.create, SpinLock.try_new, h]

/-- Witness for the amended C8 at the concrete environment `envFail` and
attributes `⟨0⟩`. -/
theorem c8_create_failed_discards_status_witness :
    nt_success (envFail.constructStatus ⟨0⟩) = false ∧
    ((SafeSpinLock.create envFail .Uninitialized ⟨0⟩).1 =
        .error .CreateFailed ∧
      (SpinLock.try_new envFail ⟨0⟩).1 =
        .error (envFail.constructStatus ⟨0⟩) ∧
      SpinLockError.nativeStatus .CreateFailed = none) :=
  ⟨by decide, c8_create_failed_discards_status envFail ⟨0⟩ (by decide)⟩

/-- C9: every operation is total — it returns a pair of either a success
value or an error, together with its native-call trace — and the raw handles
contained in the input value are returned to the caller exactly (neither
dropped nor duplicated): `acquire` and `release` preserve the input's handle
list in every branch, and so does `create` except on `Uninitialized` input,
which contains no handle to preserve. -/
theorem c9_total_and_handle_preserving (env : WdfEnv) (s : SafeSpinLock)
    (attrs : WDF_OBJECT_ATTRIBUTES) :
    ((∃ l tr, SafeSpinLock.create env s attrs = (.ok l, tr)) ∨
      (∃ e tr, SafeSpinLock.create env s attrs = (.error e, tr))) ∧
    (resultHandles (SafeSpinLock.create env s attrs).1 = s.handles ∨
      s = .Uninitialized) ∧
    resultHandles (SafeSpinLock.acquire s).1 = s.handles ∧
    resultHandles (SafeSpinLock.release s).1 = s.handles := by
  cases s with
  | Uninitialized =>
    refine ⟨?_, .inr rfl, rfl, rfl⟩
    by_cases h : nt_success (env.constructStatus attrs) = true
    · exact .inl ⟨.Initialized ⟨env.constructHandle attrs⟩, [.construct attrs],
        by simp [SafeSpinLock.create, SpinLock.create, SpinLock.try_new, h]⟩
    · exact .inr ⟨.CreateFailed, [.construct attrs],
        by simp [SafeSpinLock.create, SpinLock.create, SpinLock.try_new, h]⟩
  | Initialized inner =>
    exact ⟨.inr ⟨_, _, rfl⟩, .inl rfl, rfl, rfl⟩
  | Held inner =>
    exact ⟨.inr ⟨_, _, rfl⟩, .inl rfl, rfl, rfl⟩

/-- C10: the two raw-layer construction entry points are equivalent:
`SpinLock::create` returns exactly the same result as `SpinLock::try_new`
for every environment and attributes argument. -/
theorem c10_create_eq_try_new (env : WdfEnv)
    (attrs : WDF_OBJECT_ATTRIBUTES) :
    SpinLock.create env attrs = SpinLock.try_new env attrs :=
  rfl
